import Mathlib

/-!
Verification development for the PhD_Presentation repository.

The repository ships two independent browser plugins:

* `reveal-svg-layers` (ESM build in `src/unnamed/part_000`, UMD build in
  `src/unnamed/part_001`, identical logic): partitions the labelled groups of
  an SVG into base layers and step layers, creates one invisible fragment
  placeholder per step layer, and toggles layer visibility in lockstep with
  the deck's fragment events.
* `floating-dev-helper.js`: a drag/resize debug overlay that mirrors the
  element geometry into four style variables only at drag completion.

This file shallowly embeds both plugins and proves/refutes the frozen claims
about them.  DOM elements are modelled as records carrying the attributes the
code reads and writes; the `rsvg-hidden` class is the `hidden` flag of a
group; element identity is a numeric `gid`.
-/

set_option linter.unusedVariables false

namespace RevealSvgLayers

/-- A labelled SVG group (`<g>` element).  `gid` is the element's identity,
`inkscapeLabel`/`dataLabel`/`idAttr` are the `inkscape:label`, `data-label`
and `id` attributes (`none` = attribute absent), and `hidden` records whether
the element currently carries the `rsvg-hidden` class. -/
structure Group where
  gid : Nat
  inkscapeLabel : Option String
  dataLabel : Option String
  idAttr : Option String
  hidden : Bool
deriving Repr, DecidableEq

/-- An `<svg>` root.  The three group lists are the results of the three CSS
queries tried by `findLayers`, in order; the attribute fields are read by
`inlineExternalSvg`'s default-sizing rule. -/
structure Svg where
  widthAttr : Option String
  heightAttr : Option String
  styleAttr : Option String
  inkscapeLayers : List Group
  topLevelIdGroups : List Group
  allGroups : List Group
deriving Repr, DecidableEq

/-- A `.r-svg-layers` container `<div>`: its idempotency flag
`__rsvgProcessed`, its current inline `<svg>` child (if any) and the five
`data-*` attributes the plugin reads (`none` = attribute absent). -/
structure Container where
  processed : Bool
  svg : Option Svg
  dataSrc : Option String
  dataInclude : Option String
  dataBase : Option String
  dataOrder : Option String
  dataFragmentClass : Option String
deriving Repr, DecidableEq

/-- One invisible fragment `<span>` appended by `buildSteps`: its
`data-rsvg-uid` and `data-rsvg-index` attributes, the `__rsvgLayer` reference
(the `gid` of the bound layer), whether the deck currently gives it the
`visible` class, and the class string it was created with. -/
structure Placeholder where
  uid : Nat
  index : Nat
  layer : Nat
  visible : Bool
  className : String
deriving Repr, DecidableEq

/-- Embeds JavaScript `s.toLowerCase()` for the ASCII labels the plugin
compares (character-wise lowering). -/
def lowerStr (s : String) : String :=
  String.mk (s.data.map Char.toLower)

/-- ASCII whitespace, as removed by JavaScript `String.prototype.trim` on the
attribute lists appearing here. -/
def isWsp (c : Char) : Bool :=
  c = ' ' || c = '\t' || c = '\n' || c = '\r'

/-- Embeds JavaScript `s.trim()` (both ends, ASCII whitespace). -/
def trimStr (s : String) : String :=
  String.mk (((s.data.dropWhile isWsp).reverse.dropWhile isWsp).reverse)

/-- Embeds JavaScript `s.split(',')`: split at every comma; `"".split(',')`
is `[""]`. -/
def splitCommaList : List Char → List (List Char)
  | [] => [[]]
  | c :: rest =>
      match splitCommaList rest with
      | [] => if c = ',' then [[], []] else [[c]]
      | h :: t => if c = ',' then [] :: h :: t else (c :: h) :: t

/-- Embeds JavaScript `s.split(',')` on `String`. -/
def splitComma (s : String) : List String :=
  (splitCommaList s.data).map String.mk

/-- Embeds the plugin's `toList`:
`(attrVal || '').split(',').map(s => s.trim()).filter(Boolean)`.
`none` models `getAttribute` returning `null`. -/
def toList (attrVal : Option String) : List String :=
  (((splitComma (attrVal.getD "")).map trimStr).filter (fun s => !(s == "")))

/-- Embeds JavaScript `a || b` on strings, where `null` is modelled as `""`:
the empty string is falsy. -/
def orFalsy (a b : String) : String :=
  if a = "" then b else a

/-- Embeds `getInkscapeLabel` / `getLabel`:
`el.getAttribute('inkscape:label') || el.getAttribute('data-label') || el.id || ''`. -/
def getLabel (g : Group) : String :=
  orFalsy (g.inkscapeLabel.getD "") (orFalsy (g.dataLabel.getD "") (g.idAttr.getD ""))

/-- Embeds `byName`: the lower-cased resolved label of a group. -/
def byName (g : Group) : String :=
  lowerStr (getLabel g)

/-- Embeds `findLayers`: prefer Inkscape layer groups, fall back to top-level
`<g id>` groups, finally to all `<g>` descendants. -/
def findLayers (svg : Svg) : List Group :=
  if !svg.inkscapeLayers.isEmpty then svg.inkscapeLayers
  else if !svg.topLevelIdGroups.isEmpty then svg.topLevelIdGroups
  else svg.allGroups

/-- Embeds `hideLayer(el)`: add the `rsvg-hidden` class to the element with
this `gid` (elements are identified by `gid`). -/
def hideLayer (gid : Nat) (groups : List Group) : List Group :=
  groups.map (fun g => if g.gid = gid then { g with hidden := true } else g)

/-- Embeds `showLayer(el)`: remove the `rsvg-hidden` class. -/
def showLayer (gid : Nat) (groups : List Group) : List Group :=
  groups.map (fun g => if g.gid = gid then { g with hidden := false } else g)

/-- Embeds `baseLayers.forEach(showLayer)` (and teardown's
`stepLayers.forEach(showLayer)`). -/
def showAll (gids : List Nat) (groups : List Group) : List Group :=
  gids.foldl (fun gs i => showLayer i gs) groups

/-- Embeds `stepLayers.forEach(hideLayer)`. -/
def hideAll (gids : List Nat) (groups : List Group) : List Group :=
  gids.foldl (fun gs i => hideLayer i gs) groups

/-- Embeds the entry list of `new Map(stepLayers.map(el => [byName(el), el]))`. -/
def layerMap (stepLayers : List Group) : List (String × Group) :=
  stepLayers.map (fun el => (byName el, el))

/-- Embeds `Map.prototype.get` on a map built from an entry list: for a
duplicated key the *last* entry wins, absent keys give `undefined`. -/
def mapGet (entries : List (String × Group)) (k : String) : Option Group :=
  (entries.reverse.find? (fun e => e.1 == k)).map Prod.snd

/-- Embeds the include branch of `buildSteps`:
`includeList.map(n => mapByName.get(n.toLowerCase())).filter(Boolean)`. -/
def selectInclude (includeList : List String) (stepLayers : List Group) : List Group :=
  (includeList.map (fun n => mapGet (layerMap stepLayers) (lowerStr n))).filterMap id

/-- Embeds `stepLayers.map((layerEl, i) => ...)`: create one placeholder per
step layer carrying the container uid, the running index and the
`__rsvgLayer` reference; a freshly created span does not have the `visible`
class. -/
def mkPlaceholdersFrom (uid : Nat) (extraFrag : String) : Nat → List Group → List Placeholder
  | _, [] => []
  | i, g :: rest =>
      { uid := uid, index := i, layer := g.gid, visible := false,
        className := "fragment rsvg-fragment" ++ (if extraFrag = "" then "" else " " ++ extraFrag) }
        :: mkPlaceholdersFrom uid extraFrag (i + 1) rest

/-- Embeds `syncFromVisibleFragments`: hide all step layers, then show the
bound layer of every placeholder currently carrying the `visible` class. -/
def syncFromVisibleFragments (stepGids : List Nat) (placeholders : List Placeholder)
    (groups : List Group) : List Group :=
  placeholders.foldl (fun gs ph => if ph.visible then showLayer ph.layer gs else gs)
    (hideAll stepGids groups)

/-- The result of one `buildSteps` run on a container: the mutated group
states, the classified layer lists, the appended placeholders, the container
uid and the three deck subscriptions it registered. -/
structure BuildResult where
  groups : List Group
  baseLayers : List Group
  stepLayers : List Group
  placeholders : List Placeholder
  uid : Nat
  subFragShown : Bool
  subFragHidden : Bool
  subSlideChanged : Bool
deriving Repr, DecidableEq

/-- Embeds `buildSteps` (`part_000` lines 108-205, identically `part_001`
lines 36-108).  `optFragmentClass` is `options.fragmentClass`; `uid` is the
value drawn from the `uniqId` counter, modelled as a parameter that is
distinct per container. -/
def buildSteps (c : Container) (svg : Svg) (optFragmentClass : String) (uid : Nat) :
    BuildResult :=
  let allLayers := findLayers svg
  let includeList := toList c.dataInclude
  let baseList := toList c.dataBase
  let order := lowerStr (c.dataOrder.getD "document")
  let extraFrag := orFalsy (c.dataFragmentClass.getD "") optFragmentClass
  let baseSet := baseList.map lowerStr
  let part := allLayers.partition (fun g => baseSet.contains (byName g))
  let baseLayers := part.1
  let step0 := part.2
  let stepLayers :=
    if includeList.isEmpty then
      (if order = "reverse" then step0.reverse else step0)
    else selectInclude includeList step0
  let g1 := showAll (baseLayers.map Group.gid) allLayers
  let g2 := hideAll (stepLayers.map Group.gid) g1
  let placeholders := mkPlaceholdersFrom uid extraFrag 0 stepLayers
  let g3 := syncFromVisibleFragments (stepLayers.map Group.gid) placeholders g2
  { groups := g3, baseLayers := baseLayers, stepLayers := stepLayers,
    placeholders := placeholders, uid := uid,
    subFragShown := true, subFragHidden := true, subSlideChanged := true }

/-- The lower-cased base-label set `baseSet` of `buildSteps`. -/
def baseNames (c : Container) : List String :=
  (toList c.dataBase).map lowerStr

/-- The non-base groups of a container's graphic in document order: the
contents of `buildSteps`' `stepLayers` before the include/order step (the
`partition` loop pushes a group here exactly when its lower-cased label is
not in the base set). -/
def nonBaseLayers (c : Container) (svg : Svg) : List Group :=
  (findLayers svg).filter (not ∘ fun g => (baseNames c).contains (byName g))

/-- The fragment element carried by a `fragmentshown`/`fragmenthidden` event:
its `data-rsvg-uid` attribute (absent on foreign fragments) and its
`__rsvgLayer` reference. -/
structure FragRef where
  uidAttr : Option Nat
  layer : Nat
deriving Repr, DecidableEq

/-- Embeds `onFragmentShown`: if the event's fragment carries this
container's uid, show the bound layer; otherwise do nothing.  `none` models
`ev.fragment` being absent. -/
def onFragmentShown (uid : Nat) (ev : Option FragRef) (groups : List Group) : List Group :=
  match ev with
  | none => groups
  | some ph => if ph.uidAttr = some uid then showLayer ph.layer groups else groups

/-- Embeds `onFragmentHidden`: the hiding counterpart of `onFragmentShown`. -/
def onFragmentHidden (uid : Nat) (ev : Option FragRef) (groups : List Group) : List Group :=
  match ev with
  | none => groups
  | some ph => if ph.uidAttr = some uid then hideLayer ph.layer groups else groups

/-- Embeds `onSlideChanged`: resynchronize from the placeholders' `visible`
classes when the new current slide contains this container. -/
def onSlideChanged (stepGids : List Nat) (placeholders : List Placeholder)
    (currentContainsContainer : Bool) (groups : List Group) : List Group :=
  if currentContainsContainer then syncFromVisibleFragments stepGids placeholders groups
  else groups

/-- Embeds the teardown closure pushed onto `teardownFns`: deregister the
three deck subscriptions, remove every placeholder from the container, and
show every step layer again. -/
def teardown (r : BuildResult) : BuildResult :=
  { r with subFragShown := false, subFragHidden := false, subSlideChanged := false,
           placeholders := [],
           groups := showAll (r.stepLayers.map Group.gid) r.groups }

/-- Embeds the plugin's `destroy`: run every registered teardown closure. -/
def destroy (rs : List BuildResult) : List BuildResult :=
  rs.map teardown

/-- The browser side of `inlineExternalSvg`, which is outside the repository:
`fetchOk` mirrors `res.ok` of the `fetch` of `data-src`, and `parsed` is the
document produced by `DOMParser.parseFromString` on the response body.
`parseFromString` never throws: malformed markup yields an error document
(a `<parsererror>` root), modelled as an `Svg` whose three group queries all
come back empty. -/
structure Env where
  fetchOk : Bool
  parsed : Svg
deriving Repr, DecidableEq

/-- Embeds the default responsive sizing rule of `inlineExternalSvg`: applied
only when the graphic specifies neither a `width` nor a `height` attribute
(`!svg.getAttribute('width') && !svg.getAttribute('height')`). -/
def applyDefaultSizing (svg : Svg) : Svg :=
  if (svg.widthAttr.getD "") = "" ∧ (svg.heightAttr.getD "") = "" then
    { svg with styleAttr := some "max-width:100%; height:auto; display:block;" }
  else svg

/-- Embeds `inlineExternalSvg`: the only `throw` is on a non-ok response
(`if (!res.ok) throw ...`); otherwise the parsed document — error document
included — is imported, given the default sizing rule when unsized, appended
to the container (the caller then holds it) and returned.  `Except.error`
models the thrown, later-logged error. -/
def inlineExternalSvg (env : Env) : Except String Svg :=
  if env.fetchOk = false then Except.error "Failed to load SVG"
  else Except.ok (applyDefaultSizing env.parsed)

/-- The observable outcome of `initContainer` on one container: the
container's new state, the `buildSteps` result if it ran (carrying the
created placeholders and deck subscriptions), and whether `console.error`
was called. -/
structure InitResult where
  container : Container
  build : Option BuildResult
  logged : Bool
deriving Repr, DecidableEq

/-- Embeds `initContainer`: skip already-processed containers, set the
idempotency flag, find an inline `<svg>` or — only when there is none and
`data-src` is truthy (`if (!svg && src)`: `null` and `""` are both falsy) —
load one; a thrown load error is logged and the container abandoned; with no
`<svg>` at all the container is skipped silently; otherwise run
`buildSteps`. -/
def initContainer (env : Env) (optFragmentClass : String) (uid : Nat) (c : Container) :
    InitResult :=
  if c.processed then { container := c, build := none, logged := false }
  else
    let c1 : Container := { c with processed := true }
    match c1.svg with
    | some svg =>
        { container := c1, build := some (buildSteps c1 svg optFragmentClass uid),
          logged := false }
    | none =>
        if (c1.dataSrc.getD "") = "" then
          { container := c1, build := none, logged := false }
        else
          match inlineExternalSvg env with
          | Except.error _ => { container := c1, build := none, logged := true }
          | Except.ok svg =>
              let c2 : Container := { c1 with svg := some svg }
              { container := c2, build := some (buildSteps c2 svg optFragmentClass uid),
                logged := false }

/-- Embeds the plugin `init` loop `containers.map(initContainer)`: each
container is initialized with its own environment (its own fetch outcome);
the `uniqId` counter is modelled by handing container `i` the uid `i`. -/
def initAll (optFragmentClass : String) (l : List (Env × Container)) : List InitResult :=
  l.enum.map (fun p => initContainer p.2.1 optFragmentClass p.1 p.2.2)

end RevealSvgLayers

namespace FloatingDevHelper

open Rat

/-- Geometry of the slide `<section>` that hosts a floating element: its
bounding client rect and its client (logical content) size.  Numbers are
rationals standing for CSS pixel quantities. -/
structure SlideGeom where
  rectLeft : ℚ
  rectTop : ℚ
  rectWidth : ℚ
  rectHeight : ℚ
  clientWidth : ℚ
  clientHeight : ℚ
deriving Repr, DecidableEq

/-- The floating element's own box in unscaled slide coordinates: `left`/`top`
are its CSS `left`/`top` offsets inside the slide, `w`/`h` its layout size. -/
structure ElBox where
  left : ℚ
  top : ℚ
  w : ℚ
  h : ℚ
deriving Repr, DecidableEq

/-- A bounding client rect, as returned by `getBoundingClientRect`. -/
structure Rect where
  left : ℚ
  top : ℚ
  width : ℚ
  height : ℚ
deriving Repr, DecidableEq

/-- Embeds `getScale`: the ratio of the slide's rendered width to its logical
width; `scaleX || 1` falls back to `1` on a falsy ratio. -/
def getScale (slide : SlideGeom) : ℚ :=
  let scaleX := slide.rectWidth / slide.clientWidth
  if scaleX = 0 then 1 else scaleX

/-- Browser layout, which is outside the repository, modelled for an element
absolutely positioned in a slide that carries a uniform visual scale: the
rendered rect is the slide origin plus the scaled box. -/
def elRect (slide : SlideGeom) (b : ElBox) : Rect :=
  { left := slide.rectLeft + getScale slide * b.left,
    top := slide.rectTop + getScale slide * b.top,
    width := getScale slide * b.w,
    height := getScale slide * b.h }

/-- The record computed by `measure`: unscaled offsets and size, plus the
percentage position inside the slide's content box. -/
structure Measure where
  left : ℚ
  top : ℚ
  width : ℚ
  height : ℚ
  leftPct : ℚ
  topPct : ℚ
deriving Repr, DecidableEq

/-- Embeds `measure(el, slide)`. -/
def measure (slide : SlideGeom) (b : ElBox) : Measure :=
  let rect := elRect slide b
  let scale := getScale slide
  let left := (rect.left - slide.rectLeft) / scale
  let top := (rect.top - slide.rectTop) / scale
  let width := rect.width / scale
  let height := rect.height / scale
  { left := left, top := top, width := width, height := height,
    leftPct := left / slide.clientWidth * 100,
    topPct := top / slide.clientHeight * 100 }

/-- A `.floating.debug` element together with everything the helper attaches
to it: the `processed` WeakSet membership, its decoration (grip, HUD, the
pointerdown listeners added by `enableDrag`, the live ResizeObserver count),
its geometry box, the drag-gesture state, the HUD text (as the measure it
displays) and the log of commits to the four `--floating-*` style variables
(one entry per `mirror === true` invocation of `updateHudAndVars`). -/
structure FloatingEl where
  hasSlideAncestor : Bool
  inWeakSet : Bool
  hasGrip : Bool
  hasHud : Bool
  gripPointerdownListeners : Nat
  elPointerdownListeners : Nat
  resizeObservers : Nat
  box : ElBox
  dragging : Bool
  startX : ℚ
  startY : ℚ
  startLeft : ℚ
  startTop : ℚ
  hud : Option Measure
  commits : List Measure
deriving Repr, DecidableEq

/-- Embeds `updateHudAndVars(el, slide, mirror)`: always refresh the HUD
text; write the four `--floating-*` style variables only when `mirror` is
true (recorded by appending to `commits`). -/
def updateHudAndVars (slide : SlideGeom) (mirror : Bool) (el : FloatingEl) : FloatingEl :=
  let m := measure slide el.box
  let el1 := { el with hud := some m }
  if mirror then { el1 with commits := el1.commits ++ [m] } else el1

/-- Embeds `startDrag(e)`: capture the gesture start position and the
element's current computed offsets, and enter the dragging state. -/
def startDrag (x y : ℚ) (el : FloatingEl) : FloatingEl :=
  { el with startLeft := el.box.left, startTop := el.box.top,
            startX := x, startY := y, dragging := true }

/-- The pointer/observer events the helper reacts to.  `pointerDown` carries
whether it hit the corner grip and whether ALT was held; `resizeTick` is a
ResizeObserver notification after the user resized the box to `w × h`;
`rafTick` is the deferred initial re-measure. -/
inductive HEvent where
  | pointerDown (x y : ℚ) (onGrip altKey : Bool)
  | pointerMove (x y : ℚ)
  | pointerUp
  | resizeTick (w h : ℚ)
  | rafTick
deriving Repr, DecidableEq

/-- Embeds one event dispatch against the listeners installed by `initOne`:
the grip listener and the ALT-capture listener call `startDrag`; `onMove`
(installed only while dragging, and guarded by `dragging`) moves the element
by the scale-compensated delta and refreshes the HUD without mirroring;
`onUp` (one-shot, installed only while dragging) leaves the dragging state
and mirrors; the ResizeObserver callback refreshes without mirroring. -/
def helperStep (slide : SlideGeom) (el : FloatingEl) : HEvent → FloatingEl
  | HEvent.pointerDown x y onGrip altKey =>
      if onGrip || altKey then startDrag x y el else el
  | HEvent.pointerMove x y =>
      if el.dragging then
        let scale := getScale slide
        let dx := (x - el.startX) / scale
        let dy := (y - el.startY) / scale
        updateHudAndVars slide false
          { el with box := { el.box with left := el.startLeft + dx, top := el.startTop + dy } }
      else el
  | HEvent.pointerUp =>
      if el.dragging then updateHudAndVars slide true { el with dragging := false } else el
  | HEvent.resizeTick w h =>
      updateHudAndVars slide false { el with box := { el.box with w := w, h := h } }
  | HEvent.rafTick => updateHudAndVars slide false el

/-- Folds a sequence of events through `helperStep`. -/
def runHelper (slide : SlideGeom) (el : FloatingEl) (evs : List HEvent) : FloatingEl :=
  evs.foldl (helperStep slide) el

/-- The intermediate notifications of a gesture: pointer moves, resize
observer ticks and the deferred initial re-measure — everything except the
gesture delimiters. -/
def isIntermediate : HEvent → Bool
  | HEvent.pointerMove _ _ => true
  | HEvent.resizeTick _ _ => true
  | HEvent.rafTick => true
  | _ => false

/-- Embeds `addGrip(el)`: create the corner grip unless one exists. -/
def addGrip (el : FloatingEl) : FloatingEl :=
  if el.hasGrip then el else { el with hasGrip := true }

/-- Embeds `addHud(el, slide)`: create the HUD unless one exists. -/
def addHud (el : FloatingEl) : FloatingEl :=
  if el.hasHud then el else { el with hasHud := true }

/-- Embeds `enableDrag(el, slide)`: a `pointerdown` listener on the grip (if
present) and a capturing ALT-`pointerdown` listener on the element. -/
def enableDrag (el : FloatingEl) : FloatingEl :=
  let el1 :=
    if el.hasGrip then { el with gripPointerdownListeners := el.gripPointerdownListeners + 1 }
    else el
  { el1 with elPointerdownListeners := el1.elPointerdownListeners + 1 }

/-- Embeds `observeResize(el, slide)`: disconnect any previous observer and
attach a fresh one, leaving exactly one. -/
def observeResize (el : FloatingEl) : FloatingEl :=
  { el with resizeObservers := 1 }

/-- Embeds `initOne(el)`: bail out without a slide ancestor, decorate, wire
the listeners, re-measure after the deferred frames, and mark the element
processed. -/
def initOne (slide : SlideGeom) (el : FloatingEl) : FloatingEl :=
  if el.hasSlideAncestor = false then el
  else
    let el1 := addGrip el
    let el2 := addHud el1
    let el3 := enableDrag el2
    let el4 := observeResize el3
    let el5 := updateHudAndVars slide false el4
    { el5 with inWeakSet := true }

/-- Embeds the per-element body of `initAll`:
`if(!processed.has(el)) initOne(el); else updateHudAndVars(el, ..., false)`. -/
def initAllStep (slide : SlideGeom) (el : FloatingEl) : FloatingEl :=
  if el.inWeakSet then updateHudAndVars slide false el else initOne slide el

end FloatingDevHelper

/-! Concrete instances used by witnesses and counterexamples. -/

namespace RevealSvgLayers

/-- The `Axes` layer group of the spec's worked scenario. -/
def gAxes : Group :=
  { gid := 0, inkscapeLabel := some "Axes", dataLabel := none, idAttr := none, hidden := false }

/-- The `Grid` layer group of the scenario. -/
def gGrid : Group :=
  { gid := 1, inkscapeLabel := some "Grid", dataLabel := none, idAttr := none, hidden := false }

/-- The `Step1` layer group of the scenario. -/
def gStep1 : Group :=
  { gid := 2, inkscapeLabel := some "Step1", dataLabel := none, idAttr := none, hidden := false }

/-- The `Step2` layer group of the scenario. -/
def gStep2 : Group :=
  { gid := 3, inkscapeLabel := some "Step2", dataLabel := none, idAttr := none, hidden := false }

/-- The `Step3` layer group of the scenario. -/
def gStep3 : Group :=
  { gid := 4, inkscapeLabel := some "Step3", dataLabel := none, idAttr := none, hidden := false }

/-- The scenario `<svg>`: five Inkscape layers `Axes, Grid, Step1, Step2,
Step3` in document order, all initially visible. -/
def svgScenario : Svg :=
  { widthAttr := none, heightAttr := none, styleAttr := none,
    inkscapeLayers := [gAxes, gGrid, gStep1, gStep2, gStep3],
    topLevelIdGroups := [], allGroups := [gAxes, gGrid, gStep1, gStep2, gStep3] }

/-- The scenario container: `data-base="Axes,Grid"`,
`data-include="Step1,Step3"`. -/
def contScenario : Container :=
  { processed := false, svg := some svgScenario, dataSrc := none,
    dataInclude := some "Step1,Step3", dataBase := some "Axes,Grid",
    dataOrder := none, dataFragmentClass := none }

/-- The `buildSteps` run of the scenario (uid 1). -/
def resScenario : BuildResult :=
  buildSteps contScenario svgScenario "" 1

/-- A lone non-base group, for the empty-include-list counterexample. -/
def gSolo : Group :=
  { gid := 0, inkscapeLabel := some "Solo", dataLabel := none, idAttr := none, hidden := false }

/-- A single-layer `<svg>` for the empty-include-list counterexample. -/
def svgSolo : Svg :=
  { widthAttr := none, heightAttr := none, styleAttr := none,
    inkscapeLayers := [gSolo], topLevelIdGroups := [], allGroups := [gSolo] }

/-- A container whose `data-include` attribute is present but empty: its
include list has length 0. -/
def contEmptyInclude : Container :=
  { processed := false, svg := some svgSolo, dataSrc := none,
    dataInclude := some "", dataBase := none, dataOrder := none, dataFragmentClass := none }

/-- A container over the scenario graphic whose include list names `Ghost`,
which matches no group. -/
def contGhost : Container :=
  { processed := false, svg := some svgScenario, dataSrc := none,
    dataInclude := some "Step1,Ghost,Step3", dataBase := some "Axes,Grid",
    dataOrder := none, dataFragmentClass := none }

/-- A container listing the base label `Axes` in its include list as well. -/
def contBaseInInclude : Container :=
  { processed := false, svg := some svgScenario, dataSrc := none,
    dataInclude := some "Axes,Step1", dataBase := some "Axes,Grid",
    dataOrder := none, dataFragmentClass := none }

/-- A container with no include list and `data-order="reverse"`. -/
def contReverse : Container :=
  { processed := false, svg := some svgScenario, dataSrc := none,
    dataInclude := none, dataBase := some "Axes,Grid",
    dataOrder := some "reverse", dataFragmentClass := none }

/-- An unprocessed container referencing an external graphic. -/
def contExternal : Container :=
  { processed := false, svg := none, dataSrc := some "figures/diagram.svg",
    dataInclude := none, dataBase := none, dataOrder := none, dataFragmentClass := none }

/-- The error document `DOMParser.parseFromString` returns on malformed
markup: a `<parsererror>` root, so every group query comes back empty and no
`width`/`height` attribute is present. -/
def svgErrorDoc : Svg :=
  { widthAttr := none, heightAttr := none, styleAttr := none,
    inkscapeLayers := [], topLevelIdGroups := [], allGroups := [] }

/-- An environment whose fetch answers with a non-success status. -/
def envFetchFail : Env :=
  { fetchOk := false, parsed := svgErrorDoc }

/-- An environment whose fetch succeeds but whose response body does not
parse: the parser yields the error document. -/
def envParseError : Env :=
  { fetchOk := true, parsed := svgErrorDoc }

end RevealSvgLayers

namespace FloatingDevHelper

/-- A slide rendered at scale 1/2: 1200×800 logical, 600×400 on screen. -/
def slideHalf : SlideGeom :=
  { rectLeft := 0, rectTop := 0, rectWidth := 600, rectHeight := 400,
    clientWidth := 1200, clientHeight := 800 }

/-- A decorated, idle floating element at (120, 80) with size 200×100 and no
committed style variables. -/
def elIdle : FloatingEl :=
  { hasSlideAncestor := true, inWeakSet := true, hasGrip := true, hasHud := true,
    gripPointerdownListeners := 1, elPointerdownListeners := 1, resizeObservers := 1,
    box := { left := 120, top := 80, w := 200, h := 100 },
    dragging := false, startX := 0, startY := 0, startLeft := 0, startTop := 0,
    hud := none, commits := [] }

end FloatingDevHelper

/-! Supporting lemmas. -/

namespace RevealSvgLayers

lemma contains_iff_mem (l : List String) (a : String) : l.contains a = true ↔ a ∈ l :=
  List.elem_iff

lemma showAll_eq_map (gids : List Nat) (groups : List Group) :
    showAll gids groups =
      groups.map (fun g => if g.gid ∈ gids then { g with hidden := false } else g) := by
  induction gids generalizing groups with
  | nil => simp [showAll]
  | cons a as ih =>
      have h1 : showAll (a :: as) groups = showAll as (showLayer a groups) := rfl
      rw [h1, ih, showLayer, List.map_map]
      refine List.map_congr_left (fun g _ => ?_)
      by_cases hga : g.gid = a
      · by_cases hmem : g.gid ∈ as <;>
          simp [Function.comp, hga, hmem, List.mem_cons]
      · by_cases hmem : g.gid ∈ as <;>
          simp [Function.comp, hga, hmem, List.mem_cons]

lemma mapGet_some (step0 : List Group) (k : String) (g : Group)
    (h : mapGet (layerMap step0) k = some g) : g ∈ step0 ∧ byName g = k := by
  unfold mapGet at h
  cases hf : (layerMap step0).reverse.find? (fun e => e.1 == k) with
  | none => rw [hf] at h; simp at h
  | some e =>
      rw [hf] at h
      simp only [Option.map_some'] at h
      have hp := List.find?_some hf
      have hmem := List.mem_of_find?_eq_some hf
      rw [List.mem_reverse] at hmem
      unfold layerMap at hmem
      rw [List.mem_map] at hmem
      obtain ⟨g0, hg0, hge⟩ := hmem
      have h1 : e.1 = k := eq_of_beq hp
      have h2 : e.2 = g0 := by rw [← hge]
      have h3 : e.1 = byName g0 := by rw [← hge]
      have hg2 : e.2 = g := by injection h
      constructor
      · rw [← hg2, h2]; exact hg0
      · rw [← hg2, h2, ← h3, h1]

lemma mapGet_isSome (step0 : List Group) (g : Group) (hg : g ∈ step0) :
    (mapGet (layerMap step0) (byName g)).isSome = true := by
  unfold mapGet
  have h1 : ((layerMap step0).reverse.find? (fun e => e.1 == byName g)).isSome = true := by
    rw [List.find?_isSome]
    refine ⟨(byName g, g), ?_, by simp⟩
    rw [List.mem_reverse]
    unfold layerMap
    rw [List.mem_map]
    exact ⟨g, hg, rfl⟩
  obtain ⟨e, he⟩ := Option.isSome_iff_exists.mp h1
  rw [he]
  rfl

lemma mapGet_none (step0 : List Group) (k : String)
    (h : ∀ g ∈ step0, byName g ≠ k) : mapGet (layerMap step0) k = none := by
  unfold mapGet
  rw [List.find?_eq_none.mpr, Option.map_none']
  intro e he
  rw [List.mem_reverse] at he
  unfold layerMap at he
  rw [List.mem_map] at he
  obtain ⟨g0, hg0, rfl⟩ := he
  simpa using h g0 hg0

lemma selectInclude_spec (L : List String) (step0 : List Group)
    (h : ∀ n ∈ L, ∃ g ∈ step0, byName g = lowerStr n) :
    (selectInclude L step0).length = L.length ∧
    ∀ i : Nat, (selectInclude L step0)[i]? =
      (L[i]?).bind (fun n => mapGet (layerMap step0) (lowerStr n)) := by
  induction L with
  | nil => exact ⟨rfl, fun i => by simp [selectInclude]⟩
  | cons n L ih =>
      obtain ⟨g, hgmem, hgname⟩ := h n (List.mem_cons_self n L)
      have hsome : (mapGet (layerMap step0) (lowerStr n)).isSome = true := by
        have h1 := mapGet_isSome step0 g hgmem
        rwa [hgname] at h1
      obtain ⟨g', hg'⟩ := Option.isSome_iff_exists.mp hsome
      have hih := ih (fun m hm => h m (List.mem_cons_of_mem _ hm))
      have hunf : selectInclude (n :: L) step0 = g' :: selectInclude L step0 := by
        unfold selectInclude
        simp only [List.map_cons, List.filterMap_cons, hg', id_eq]
      constructor
      · rw [hunf]
        simpa using hih.1
      · intro i
        cases i with
        | zero => rw [hunf]; simp [hg']
        | succ j =>
            rw [hunf]
            simp only [List.getElem?_cons_succ]
            exact hih.2 j

lemma mem_selectInclude (L : List String) (step0 : List Group) (g : Group)
    (hg : g ∈ selectInclude L step0) : g ∈ step0 := by
  unfold selectInclude at hg
  rw [List.mem_filterMap] at hg
  obtain ⟨o, ho, hog⟩ := hg
  rw [List.mem_map] at ho
  obtain ⟨n, hn, rfl⟩ := ho
  exact (mapGet_some step0 (lowerStr n) g (by simpa using hog)).1

lemma selectInclude_drop (L : List String) (step0 : List Group) (key : String)
    (h : ∀ g ∈ step0, byName g ≠ key) :
    selectInclude L step0 =
      selectInclude (L.filter (fun m => !(lowerStr m == key))) step0 := by
  induction L with
  | nil => rfl
  | cons m L ih =>
      by_cases hm : lowerStr m = key
      · have hnone : mapGet (layerMap step0) (lowerStr m) = none := by
          rw [hm]; exact mapGet_none step0 key h
        have hL : selectInclude (m :: L) step0 = selectInclude L step0 := by
          unfold selectInclude
          simp only [List.map_cons, List.filterMap_cons, hnone, id_eq]
        have hR : (m :: L).filter (fun m => !(lowerStr m == key)) =
            L.filter (fun m => !(lowerStr m == key)) := by
          rw [List.filter_cons, if_neg (by simp [hm])]
        rw [hL, hR, ih]
      · have hR : (m :: L).filter (fun m => !(lowerStr m == key)) =
            m :: L.filter (fun m => !(lowerStr m == key)) := by
          rw [List.filter_cons, if_pos (by simp [hm])]
        have htail := ih
        unfold selectInclude at htail
        rw [hR]
        unfold selectInclude
        simp only [List.map_cons, List.filterMap_cons, htail]

lemma mkPlaceholdersFrom_length (uid : Nat) (x : String) (j : Nat) (steps : List Group) :
    (mkPlaceholdersFrom uid x j steps).length = steps.length := by
  induction steps generalizing j with
  | nil => rfl
  | cons g rest ih => simp [mkPlaceholdersFrom, ih]

lemma mkPlaceholdersFrom_getElem (uid : Nat) (x : String) (j : Nat) (steps : List Group)
    (i : Nat) :
    ((mkPlaceholdersFrom uid x j steps)[i]?).map (fun p => (p.uid, p.index, p.layer)) =
      (steps[i]?).map (fun g => (uid, j + i, g.gid)) := by
  induction steps generalizing j i with
  | nil => simp [mkPlaceholdersFrom]
  | cons g rest ih =>
      cases i with
      | zero => simp [mkPlaceholdersFrom]
      | succ k =>
          simp only [mkPlaceholdersFrom, List.getElem?_cons_succ]
          rw [ih (j + 1) k]
          simp only [show (j + 1) + k = j + (k + 1) from by omega]

lemma mkPlaceholdersFrom_mem (uid : Nat) (x : String) (j : Nat) (steps : List Group)
    (p : Placeholder) (hp : p ∈ mkPlaceholdersFrom uid x j steps) :
    ∃ g ∈ steps, p.layer = g.gid ∧ p.uid = uid := by
  induction steps generalizing j with
  | nil => simp [mkPlaceholdersFrom] at hp
  | cons g rest ih =>
      simp only [mkPlaceholdersFrom, List.mem_cons] at hp
      cases hp with
      | inl h => exact ⟨g, List.mem_cons_self g rest, by rw [h]; exact ⟨rfl, rfl⟩⟩
      | inr h =>
          obtain ⟨g', hg', hh⟩ := ih (j + 1) h
          exact ⟨g', List.mem_cons_of_mem _ hg', hh⟩

lemma buildSteps_stepLayers (c : Container) (svg : Svg) (f : String) (uid : Nat) :
    (buildSteps c svg f uid).stepLayers =
      (if (toList c.dataInclude).isEmpty then
        (if lowerStr (c.dataOrder.getD "document") = "reverse" then (nonBaseLayers c svg).reverse
         else nonBaseLayers c svg)
      else selectInclude (toList c.dataInclude) (nonBaseLayers c svg)) := by
  unfold buildSteps nonBaseLayers baseNames
  simp only [List.partition_eq_filter_filter]

lemma buildSteps_baseLayers (c : Container) (svg : Svg) (f : String) (uid : Nat) :
    (buildSteps c svg f uid).baseLayers =
      (findLayers svg).filter (fun g => (baseNames c).contains (byName g)) := by
  unfold buildSteps baseNames
  simp only [List.partition_eq_filter_filter]

lemma buildSteps_placeholders (c : Container) (svg : Svg) (f : String) (uid : Nat) :
    (buildSteps c svg f uid).placeholders =
      mkPlaceholdersFrom uid (orFalsy (c.dataFragmentClass.getD "") f) 0
        ((buildSteps c svg f uid).stepLayers) := rfl

lemma buildSteps_stepLayers_subset (c : Container) (svg : Svg) (f : String) (uid : Nat)
    (g : Group) (hg : g ∈ (buildSteps c svg f uid).stepLayers) : g ∈ nonBaseLayers c svg := by
  rw [buildSteps_stepLayers] at hg
  by_cases h1 : (toList c.dataInclude).isEmpty
  · rw [if_pos h1] at hg
    by_cases h2 : lowerStr (c.dataOrder.getD "document") = "reverse"
    · rw [if_pos h2] at hg
      exact List.mem_reverse.mp hg
    · rwa [if_neg h2] at hg
  · rw [if_neg h1] at hg
    exact mem_selectInclude _ _ _ hg

lemma mem_nonBaseLayers_not_base (c : Container) (svg : Svg) (g : Group)
    (hg : g ∈ nonBaseLayers c svg) : byName g ∉ baseNames c := by
  unfold nonBaseLayers at hg
  rw [List.mem_filter] at hg
  intro hmem
  have h1 := (contains_iff_mem (baseNames c) (byName g)).mpr hmem
  have h2 := hg.2
  simp [Function.comp, h1] at h2
  exact h2 hmem

lemma enumFrom_getElem {α : Type} (l : List α) (j i : Nat) :
    (List.enumFrom j l)[i]? = (l[i]?).map (fun x => (j + i, x)) := by
  induction l generalizing j i with
  | nil => simp
  | cons a l ih =>
      cases i with
      | zero => simp [List.enumFrom]
      | succ k =>
          simp only [List.enumFrom, List.getElem?_cons_succ]
          rw [ih (j + 1) k]
          simp only [show (j + 1) + k = j + (k + 1) from by omega]

lemma initAll_getElem (f : String) (l : List (Env × Container)) (i : Nat) :
    (initAll f l)[i]? = (l[i]?).map (fun ec => initContainer ec.1 f i ec.2) := by
  unfold initAll List.enum
  rw [List.getElem?_map, enumFrom_getElem]
  cases h : l[i]? <;> simp [h]

end RevealSvgLayers

namespace FloatingDevHelper

lemma updateHudAndVars_false_commits (slide : SlideGeom) (el : FloatingEl) :
    (updateHudAndVars slide false el).commits = el.commits := rfl

lemma updateHudAndVars_false_dragging (slide : SlideGeom) (el : FloatingEl) :
    (updateHudAndVars slide false el).dragging = el.dragging := rfl

lemma helperStep_intermediate_commits (slide : SlideGeom) (el : FloatingEl) (e : HEvent)
    (he : isIntermediate e = true) : (helperStep slide el e).commits = el.commits := by
  cases e with
  | pointerDown x y onGrip altKey => simp [isIntermediate] at he
  | pointerMove x y =>
      by_cases hd : el.dragging <;> simp [helperStep, hd, updateHudAndVars_false_commits]
  | pointerUp => simp [isIntermediate] at he
  | resizeTick w h => simp [helperStep, updateHudAndVars_false_commits]
  | rafTick => simp [helperStep, updateHudAndVars_false_commits]

lemma helperStep_intermediate_dragging (slide : SlideGeom) (el : FloatingEl) (e : HEvent)
    (he : isIntermediate e = true) : (helperStep slide el e).dragging = el.dragging := by
  cases e with
  | pointerDown x y onGrip altKey => simp [isIntermediate] at he
  | pointerMove x y =>
      by_cases hd : el.dragging <;> simp [helperStep, hd, updateHudAndVars_false_dragging]
  | pointerUp => simp [isIntermediate] at he
  | resizeTick w h => simp [helperStep, updateHudAndVars_false_dragging]
  | rafTick => simp [helperStep, updateHudAndVars_false_dragging]

lemma runHelper_intermediate (slide : SlideGeom) (el : FloatingEl) (moves : List HEvent)
    (hm : ∀ e ∈ moves, isIntermediate e = true) :
    (runHelper slide el moves).commits = el.commits ∧
    (runHelper slide el moves).dragging = el.dragging := by
  induction moves generalizing el with
  | nil => exact ⟨rfl, rfl⟩
  | cons e ms ih =>
      have he := hm e (List.mem_cons_self e ms)
      have hstep : runHelper slide el (e :: ms) = runHelper slide (helperStep slide el e) ms := rfl
      have h1 := helperStep_intermediate_commits slide el e he
      have h2 := helperStep_intermediate_dragging slide el e he
      have hih := ih (helperStep slide el e) (fun x hx => hm x (List.mem_cons_of_mem _ hx))
      rw [hstep, hih.1, hih.2, h1, h2]
      exact ⟨rfl, rfl⟩

end FloatingDevHelper

/-! Claim theorems. -/

namespace RevealSvgLayers

/-- C1, counterexample: a container whose `data-include` attribute is present
but empty has an include list of length 0 (every listed name vacuously
matches), yet `buildSteps` takes the no-include branch and creates one
step layer and one placeholder for the lone non-base group — not 0. -/
theorem emptyInclude_counterexample :
    toList contEmptyInclude.dataInclude = [] ∧
    (buildSteps contEmptyInclude svgSolo "" 1).stepLayers.length = 1 ∧
    (buildSteps contEmptyInclude svgSolo "" 1).placeholders.length = 1 := by decide

/-- C1 (amended: the include list must be nonempty): for every container
whose data-include list is nonempty, of length N, with every listed name
matching the label of some non-base group (case-insensitively), `buildSteps`
produces exactly N step layers whose labels follow the include-list order,
and appends exactly N placeholders, placeholder `i` carrying the container
uid, index `i`, and the `__rsvgLayer` reference to step layer `i`. -/
theorem buildSteps_include_exact (c : Container) (svg : Svg) (f : String) (uid : Nat)
    (hne : toList c.dataInclude ≠ [])
    (hall : ∀ n ∈ toList c.dataInclude, ∃ g ∈ nonBaseLayers c svg, byName g = lowerStr n) :
    (buildSteps c svg f uid).stepLayers.length = (toList c.dataInclude).length ∧
    (buildSteps c svg f uid).placeholders.length = (toList c.dataInclude).length ∧
    (∀ i : Nat, ((buildSteps c svg f uid).stepLayers[i]?).map byName =
        ((toList c.dataInclude)[i]?).map lowerStr) ∧
    (∀ i : Nat, ((buildSteps c svg f uid).placeholders[i]?).map
        (fun p => (p.uid, p.index, p.layer)) =
        ((buildSteps c svg f uid).stepLayers[i]?).map (fun g => (uid, i, g.gid))) := by
  have hstep : (buildSteps c svg f uid).stepLayers =
      selectInclude (toList c.dataInclude) (nonBaseLayers c svg) := by
    rw [buildSteps_stepLayers, if_neg (by simp [List.isEmpty_iff, hne])]
  have hspec := selectInclude_spec (toList c.dataInclude) (nonBaseLayers c svg) hall
  refine ⟨?_, ?_, ?_, ?_⟩
  · rw [hstep]; exact hspec.1
  · rw [buildSteps_placeholders, mkPlaceholdersFrom_length, hstep]; exact hspec.1
  · intro i
    rw [hstep, hspec.2 i]
    cases hL : (toList c.dataInclude)[i]? with
    | none => rfl
    | some n =>
        have hn : n ∈ toList c.dataInclude := List.getElem?_mem hL
        obtain ⟨g, hgmem, hgname⟩ := hall n hn
        have hsome : (mapGet (layerMap (nonBaseLayers c svg)) (lowerStr n)).isSome = true := by
          have h1 := mapGet_isSome (nonBaseLayers c svg) g hgmem
          rwa [hgname] at h1
        obtain ⟨g', hg'⟩ := Option.isSome_iff_exists.mp hsome
        have hname' := (mapGet_some _ _ _ hg').2
        simp [hg', hname']
  · intro i
    rw [buildSteps_placeholders, mkPlaceholdersFrom_getElem]
    simp

/-- C1, witness: the amended theorem applied to the worked scenario
(include list `Step1,Step3` of length 2). -/
theorem buildSteps_include_exact_witness :
    toList contScenario.dataInclude ≠ [] ∧
    (∀ n ∈ toList contScenario.dataInclude,
        ∃ g ∈ nonBaseLayers contScenario svgScenario, byName g = lowerStr n) ∧
    ((buildSteps contScenario svgScenario "" 1).stepLayers.length =
        (toList contScenario.dataInclude).length ∧
      (buildSteps contScenario svgScenario "" 1).placeholders.length =
        (toList contScenario.dataInclude).length ∧
      (∀ i : Nat, ((buildSteps contScenario svgScenario "" 1).stepLayers[i]?).map byName =
          ((toList contScenario.dataInclude)[i]?).map lowerStr) ∧
      (∀ i : Nat, ((buildSteps contScenario svgScenario "" 1).placeholders[i]?).map
          (fun p => (p.uid, p.index, p.layer)) =
          ((buildSteps contScenario svgScenario "" 1).stepLayers[i]?).map
            (fun g => (1, i, g.gid)))) :=
  ⟨by decide, by decide,
    buildSteps_include_exact contScenario svgScenario "" 1 (by decide) (by decide)⟩

/-- C2, counterexample: in the worked scenario (base `Axes,Grid`, include
`Step1,Step3`), the claim's assertion that the `Step2` group is hidden is
false: `buildSteps` never touches a group that is in neither set, so `Step2`
keeps its default visibility. -/
theorem scenario_step2_not_hidden :
    ¬ (∀ g ∈ resScenario.groups, getLabel g = "Step2" → g.hidden = true) := by decide

/-- C2 (amended: `Step2` is left at its default visibility, not hidden):
after `buildSteps` on the scenario container, the base layers `Axes` and
`Grid` are visible, exactly two placeholders exist, bound to `Step1` then
`Step3` in that order, and `Step2` belongs to neither set: it is excluded
from stepping (no placeholder references it) and its visibility is untouched
(it does not carry the hidden class). -/
theorem scenario_axes_grid_include :
    resScenario.groups.map (fun g => (getLabel g, g.hidden)) =
      [("Axes", false), ("Grid", false), ("Step1", true), ("Step2", false), ("Step3", true)] ∧
    resScenario.placeholders.map (fun p => (p.uid, p.index, p.layer)) =
      [(1, 0, gStep1.gid), (1, 1, gStep3.gid)] ∧
    resScenario.stepLayers.map Group.gid = [gStep1.gid, gStep3.gid] ∧
    resScenario.baseLayers.map Group.gid = [gAxes.gid, gGrid.gid] ∧
    (∀ p ∈ resScenario.placeholders, p.layer ≠ gStep2.gid) ∧
    gStep2 ∉ resScenario.stepLayers := by decide

/-- C4: after `destroy` runs the teardown of an initialized container, the
three deck subscriptions are deregistered, no placeholder remains, and every
step layer is visible again. -/
theorem destroy_clean_state (rs : List BuildResult) :
    ∀ t ∈ destroy rs,
      t.subFragShown = false ∧ t.subFragHidden = false ∧ t.subSlideChanged = false ∧
      t.placeholders = [] ∧
      ∀ g ∈ t.groups, g.gid ∈ t.stepLayers.map Group.gid → g.hidden = false := by
  intro t ht
  rw [destroy, List.mem_map] at ht
  obtain ⟨r, hr, rfl⟩ := ht
  refine ⟨rfl, rfl, rfl, rfl, ?_⟩
  intro g hg hgid
  have hgr : (teardown r).groups = showAll (r.stepLayers.map Group.gid) r.groups := rfl
  have hsl : (teardown r).stepLayers = r.stepLayers := rfl
  rw [hgr, showAll_eq_map, List.mem_map] at hg
  rw [hsl] at hgid
  obtain ⟨g0, hg0, rfl⟩ := hg
  by_cases hmem : g0.gid ∈ r.stepLayers.map Group.gid
  · simp [hmem]
  · rw [if_neg hmem] at hgid
    exact absurd hgid hmem

/-- C4, witness: the teardown of the scenario container's build. -/
theorem destroy_clean_state_witness :
    teardown resScenario ∈ destroy [resScenario] ∧
    ((teardown resScenario).subFragShown = false ∧
      (teardown resScenario).subFragHidden = false ∧
      (teardown resScenario).subSlideChanged = false ∧
      (teardown resScenario).placeholders = [] ∧
      ∀ g ∈ (teardown resScenario).groups,
        g.gid ∈ (teardown resScenario).stepLayers.map Group.gid → g.hidden = false) :=
  ⟨by decide, destroy_clean_state [resScenario] (teardown resScenario) (by decide)⟩

/-- C5, counterexample: a parse error of the retrieved markup is neither
logged nor aborting — `DOMParser.parseFromString` returns an error document
instead of throwing, so `inlineExternalSvg` appends it to the container (a
partial application) and `buildSteps` runs on it, registering the three deck
subscriptions, with `console.error` never called. -/
theorem parse_error_not_logged :
    (initContainer envParseError "" 2 contExternal).logged = false ∧
    (initContainer envParseError "" 2 contExternal).container.svg =
      some (applyDefaultSizing svgErrorDoc) ∧
    ((initContainer envParseError "" 2 contExternal).build.map
        (fun r => (r.subFragShown, r.subFragHidden, r.subSlideChanged,
          r.placeholders.length))) = some (true, true, true, 0) := by decide

/-- C5 (amended: only a non-success retrieval is caught): for every container
with a truthy external graphic reference (nonempty `data-src`, no inline
`<svg>`), a non-success retrieval is logged and processing of that container
stops gracefully with no partial application — only the idempotency flag is
set, no markup is appended, no `buildSteps` runs (hence no placeholders, no
visibility changes, no subscriptions).  A parse error of the retrieved
markup, however, is not detected: the parser's error document is appended
(after the default sizing rule) and processing continues unlogged, with
`buildSteps` running on it.  Each container's `initAll` outcome depends only
on its own entry, so other containers are unaffected either way. -/
theorem fetch_failure_aborts :
    (∀ (env : Env) (f : String) (uid : Nat) (c : Container) (s : String),
        c.processed = false → c.svg = none → c.dataSrc = some s → s ≠ "" →
        env.fetchOk = false →
        initContainer env f uid c =
          { container := { c with processed := true }, build := none, logged := true }) ∧
    (∀ (env : Env) (f : String) (uid : Nat) (c : Container) (s : String),
        c.processed = false → c.svg = none → c.dataSrc = some s → s ≠ "" →
        env.fetchOk = true →
        initContainer env f uid c =
          { container := { c with processed := true, svg := some (applyDefaultSizing env.parsed) },
            build := some (buildSteps
              { c with processed := true, svg := some (applyDefaultSizing env.parsed) }
              (applyDefaultSizing env.parsed) f uid),
            logged := false }) ∧
    (∀ (f : String) (l : List (Env × Container)) (i : Nat),
        (initAll f l)[i]? = (l[i]?).map (fun ec => initContainer ec.1 f i ec.2)) := by
  refine ⟨?_, ?_, ?_⟩
  · intro env f uid c s hp hsvg hsrc hsne henv
    simp [initContainer, inlineExternalSvg, hp, hsvg, hsrc, hsne, henv]
  · intro env f uid c s hp hsvg hsrc hsne henv
    simp [initContainer, inlineExternalSvg, hp, hsvg, hsrc, hsne, henv]
  · intro f l i
    exact initAll_getElem f l i

/-- C5, witness: a container pointing at an external graphic whose fetch
answers non-success. -/
theorem fetch_failure_aborts_witness :
    contExternal.processed = false ∧ contExternal.svg = none ∧
    contExternal.dataSrc = some "figures/diagram.svg" ∧
    "figures/diagram.svg" ≠ "" ∧ envFetchFail.fetchOk = false ∧
    initContainer envFetchFail "" 0 contExternal =
      { container := { contExternal with processed := true }, build := none, logged := true } :=
  ⟨rfl, rfl, rfl, by decide, rfl,
    fetch_failure_aborts.1 envFetchFail "" 0 contExternal "figures/diagram.svg" rfl rfl rfl
      (by decide) rfl⟩

/-- C6: with no `data-include` attribute and `data-order="reverse"`, the
step-layer sequence is exactly the reverse of the document order of the
non-base groups. -/
theorem reverse_order_steps (c : Container) (svg : Svg) (f : String) (uid : Nat)
    (hinc : c.dataInclude = none) (hord : c.dataOrder = some "reverse") :
    (buildSteps c svg f uid).stepLayers = (nonBaseLayers c svg).reverse := by
  rw [buildSteps_stepLayers, hinc, hord]
  have h1 : toList (none : Option String) = [] := rfl
  have h2 : lowerStr ((some "reverse" : Option String).getD "document") = "reverse" := by decide
  rw [h1, h2]
  simp

/-- C6, witness: the reverse-order container over the scenario graphic. -/
theorem reverse_order_steps_witness :
    contReverse.dataInclude = none ∧ contReverse.dataOrder = some "reverse" ∧
    (buildSteps contReverse svgScenario "" 1).stepLayers =
      (nonBaseLayers contReverse svgScenario).reverse :=
  ⟨rfl, rfl, reverse_order_steps contReverse svgScenario "" 1 rfl rfl⟩

/-- C7: an include-list name matching no non-base group's label
(case-insensitively) is silently dropped: the produced step layers are
exactly those obtained from the include list with every copy of that name
removed (so the remaining matched names keep their include-list order), and
no produced step layer carries the missing name. -/
theorem missing_include_name_dropped (c : Container) (svg : Svg) (f : String) (uid : Nat)
    (n : String) (hmem : n ∈ toList c.dataInclude)
    (hnone : ∀ g ∈ nonBaseLayers c svg, byName g ≠ lowerStr n) :
    (buildSteps c svg f uid).stepLayers =
      selectInclude ((toList c.dataInclude).filter (fun m => !(lowerStr m == lowerStr n)))
        (nonBaseLayers c svg) ∧
    ∀ g ∈ (buildSteps c svg f uid).stepLayers, byName g ≠ lowerStr n := by
  have hne : toList c.dataInclude ≠ [] := List.ne_nil_of_mem hmem
  have hstep : (buildSteps c svg f uid).stepLayers =
      selectInclude (toList c.dataInclude) (nonBaseLayers c svg) := by
    rw [buildSteps_stepLayers, if_neg (by simp [List.isEmpty_iff, hne])]
  constructor
  · rw [hstep]
    exact selectInclude_drop _ _ _ hnone
  · intro g hg
    rw [hstep] at hg
    exact hnone g (mem_selectInclude _ _ _ hg)

/-- C7, witness: the container whose include list names the nonexistent
`Ghost` between `Step1` and `Step3`. -/
theorem missing_include_name_dropped_witness :
    "Ghost" ∈ toList contGhost.dataInclude ∧
    (∀ g ∈ nonBaseLayers contGhost svgScenario, byName g ≠ lowerStr "Ghost") ∧
    ((buildSteps contGhost svgScenario "" 1).stepLayers =
        selectInclude ((toList contGhost.dataInclude).filter
          (fun m => !(lowerStr m == lowerStr "Ghost"))) (nonBaseLayers contGhost svgScenario) ∧
      ∀ g ∈ (buildSteps contGhost svgScenario "" 1).stepLayers, byName g ≠ lowerStr "Ghost") :=
  ⟨by decide, by decide,
    missing_include_name_dropped contGhost svgScenario "" 1 "Ghost" (by decide) (by decide)⟩

/-- C8: a `fragmentshown`/`fragmenthidden` event whose fragment carries this
container's uid changes exactly the layer bound to that fragment (every
other group keeps its state, position by position); an event with a foreign
or absent uid, or no fragment at all, changes nothing. -/
theorem fragment_toggles_bound_layer (uid : Nat) (ph : FragRef) (groups : List Group) :
    (ph.uidAttr = some uid →
      (∀ i : Nat, (onFragmentShown uid (some ph) groups)[i]? =
          (groups[i]?).map (fun g => if g.gid = ph.layer then { g with hidden := false } else g)) ∧
      (∀ i : Nat, (onFragmentHidden uid (some ph) groups)[i]? =
          (groups[i]?).map (fun g => if g.gid = ph.layer then { g with hidden := true } else g))) ∧
    (ph.uidAttr ≠ some uid →
      onFragmentShown uid (some ph) groups = groups ∧
      onFragmentHidden uid (some ph) groups = groups) ∧
    (onFragmentShown uid none groups = groups ∧
      onFragmentHidden uid none groups = groups) := by
  refine ⟨fun h => ⟨fun i => ?_, fun i => ?_⟩, fun h => ⟨?_, ?_⟩, rfl, rfl⟩
  · simp [onFragmentShown, h, showLayer, List.getElem?_map]
  · simp [onFragmentHidden, h, hideLayer, List.getElem?_map]
  · simp [onFragmentShown, h]
  · simp [onFragmentHidden, h]

/-- C8, witness: a shown event for uid 1 bound to the `Step1` group. -/
theorem fragment_toggles_bound_layer_witness :
    ({ uidAttr := some 1, layer := 2 } : FragRef).uidAttr = some 1 ∧
    (∀ i : Nat,
      (onFragmentShown 1 (some { uidAttr := some 1, layer := 2 }) [gStep1, gStep2])[i]? =
        (([gStep1, gStep2] : List Group)[i]?).map
          (fun g => if g.gid = ({ uidAttr := some 1, layer := 2 } : FragRef).layer
            then { g with hidden := false } else g)) :=
  ⟨rfl, ((fragment_toggles_bound_layer 1 { uidAttr := some 1, layer := 2 }
      [gStep1, gStep2]).1 rfl).1⟩

/-- C10: base classification wins over the include list — every group whose
label matches a base name is classified as a base layer, the include lookup
(searching only non-base groups) finds nothing for that name, so no step
layer and no placeholder ever carries it. -/
theorem base_wins_over_include (c : Container) (svg : Svg) (f : String) (uid : Nat)
    (n : String) (hinc : n ∈ toList c.dataInclude)
    (hbase : lowerStr n ∈ baseNames c) :
    (∀ g ∈ findLayers svg, byName g = lowerStr n → g ∈ (buildSteps c svg f uid).baseLayers) ∧
    (∀ g ∈ (buildSteps c svg f uid).stepLayers, byName g ≠ lowerStr n) ∧
    (∀ p ∈ (buildSteps c svg f uid).placeholders,
        ∃ g ∈ (buildSteps c svg f uid).stepLayers, p.layer = g.gid ∧ byName g ≠ lowerStr n) := by
  have hstep2 : ∀ g ∈ (buildSteps c svg f uid).stepLayers, byName g ≠ lowerStr n := by
    intro g hg
    have h1 := buildSteps_stepLayers_subset c svg f uid g hg
    have h2 := mem_nonBaseLayers_not_base c svg g h1
    intro he
    rw [he] at h2
    exact h2 hbase
  refine ⟨?_, hstep2, ?_⟩
  · intro g hgmem hname
    rw [buildSteps_baseLayers, List.mem_filter]
    refine ⟨hgmem, ?_⟩
    rw [hname]
    exact (contains_iff_mem _ _).mpr hbase
  · intro p hp
    rw [buildSteps_placeholders] at hp
    obtain ⟨g, hg, hlayer, hpud⟩ := mkPlaceholdersFrom_mem _ _ _ _ p hp
    exact ⟨g, hg, hlayer, hstep2 g hg⟩

/-- C10, witness: the container listing the base label `Axes` in its
include list. -/
theorem base_wins_over_include_witness :
    "Axes" ∈ toList contBaseInInclude.dataInclude ∧
    lowerStr "Axes" ∈ baseNames contBaseInInclude ∧
    ((∀ g ∈ findLayers svgScenario, byName g = lowerStr "Axes" →
        g ∈ (buildSteps contBaseInInclude svgScenario "" 1).baseLayers) ∧
      (∀ g ∈ (buildSteps contBaseInInclude svgScenario "" 1).stepLayers,
        byName g ≠ lowerStr "Axes") ∧
      (∀ p ∈ (buildSteps contBaseInInclude svgScenario "" 1).placeholders,
        ∃ g ∈ (buildSteps contBaseInInclude svgScenario "" 1).stepLayers,
          p.layer = g.gid ∧ byName g ≠ lowerStr "Axes")) :=
  ⟨by decide, by decide,
    base_wins_over_include contBaseInInclude svgScenario "" 1 "Axes" (by decide) (by decide)⟩

end RevealSvgLayers

namespace FloatingDevHelper

lemma helperStep_pointerUp_dragging (slide : SlideGeom) (s : FloatingEl)
    (hd : s.dragging = true) :
    (helperStep slide s HEvent.pointerUp).commits = s.commits ++ [measure slide s.box] := by
  simp only [helperStep, hd, if_true]
  rfl

/-- C3, counterexample: a complete resize gesture (a pointer-down outside the
grip without ALT, a ResizeObserver tick for the new size, pointer-up) never
writes the four committed style variables: the commit log is still empty at
gesture completion, not written exactly once. -/
theorem resize_never_commits :
    (runHelper slideHalf elIdle
      [HEvent.pointerDown 140 200 false false, HEvent.resizeTick 250 120,
       HEvent.pointerUp]).commits = [] ∧
    ¬ ((runHelper slideHalf elIdle
      [HEvent.pointerDown 140 200 false false, HEvent.resizeTick 250 120,
       HEvent.pointerUp]).commits.length = 1) := by decide

/-- C3 (amended: only drag gestures commit, at the pointer-up transition;
resize-observer ticks never do): intermediate events (pointer moves, resize
ticks, the deferred re-measure) never change the commit log; a drag gesture
— pointer-down on the grip or with ALT, any intermediate events, pointer-up
— leaves the log unchanged until the pointer-up, which appends exactly one
commit. -/
theorem commit_only_at_drag_end (slide : SlideGeom) (el : FloatingEl) (x y : ℚ)
    (onGrip altKey : Bool) (moves : List HEvent)
    (hm : ∀ e ∈ moves, isIntermediate e = true)
    (hstart : onGrip = true ∨ altKey = true) :
    (∀ (s : FloatingEl) (e : HEvent), isIntermediate e = true →
        (helperStep slide s e).commits = s.commits) ∧
    (runHelper slide el (HEvent.pointerDown x y onGrip altKey :: moves)).commits = el.commits ∧
    ∃ m, (runHelper slide el ((HEvent.pointerDown x y onGrip altKey :: moves) ++
        [HEvent.pointerUp])).commits = el.commits ++ [m] := by
  have hdown : helperStep slide el (HEvent.pointerDown x y onGrip altKey) = startDrag x y el := by
    rcases hstart with h | h <;> simp [helperStep, h]
  have hrun : runHelper slide el (HEvent.pointerDown x y onGrip altKey :: moves) =
      runHelper slide (startDrag x y el) moves := by
    show runHelper slide (helperStep slide el (HEvent.pointerDown x y onGrip altKey)) moves =
      runHelper slide (startDrag x y el) moves
    rw [hdown]
  have hmid := runHelper_intermediate slide (startDrag x y el) moves hm
  refine ⟨fun s e he => helperStep_intermediate_commits slide s e he, ?_, ?_⟩
  · rw [hrun, hmid.1]
    rfl
  · refine ⟨measure slide (runHelper slide (startDrag x y el) moves).box, ?_⟩
    have happ : runHelper slide el ((HEvent.pointerDown x y onGrip altKey :: moves) ++
        [HEvent.pointerUp]) =
        helperStep slide (runHelper slide (startDrag x y el) moves) HEvent.pointerUp := by
      unfold runHelper
      rw [List.foldl_append]
      unfold runHelper at hrun
      rw [hrun]
      rfl
    have hdrag : (runHelper slide (startDrag x y el) moves).dragging = true := by
      rw [hmid.2]
      rfl
    have hcom : (runHelper slide (startDrag x y el) moves).commits = el.commits := by
      rw [hmid.1]
      rfl
    rw [happ, helperStep_pointerUp_dragging slide _ hdrag, hcom]

/-- C3, witness: the amended theorem applied to a grip drag with one move
and one resize tick on the half-scale slide. -/
theorem commit_only_at_drag_end_witness :
    (∀ e ∈ [HEvent.pointerMove 200 230, HEvent.resizeTick 250 120],
        isIntermediate e = true) ∧
    (true = true ∨ false = true) ∧
    (∃ m, (runHelper slideHalf elIdle ((HEvent.pointerDown 140 200 true false ::
        [HEvent.pointerMove 200 230, HEvent.resizeTick 250 120]) ++
        [HEvent.pointerUp])).commits = elIdle.commits ++ [m]) :=
  ⟨by decide, Or.inl rfl,
    (commit_only_at_drag_end slideHalf elIdle 140 200 true false
      [HEvent.pointerMove 200 230, HEvent.resizeTick 250 120] (by decide) (Or.inl rfl)).2.2⟩

end FloatingDevHelper

/-- C9: initialization is idempotent per element/container — `initContainer`
on a container whose `__rsvgProcessed` flag is set returns it unchanged with
no build (no placeholders, no subscriptions, no log), and the overlay
helper's scan on an element already in the `processed` WeakSet only
refreshes the HUD text: no further grip, HUD, listener or observer
decoration. -/
theorem init_idempotent :
    (∀ (env : RevealSvgLayers.Env) (f : String) (uid : Nat) (c : RevealSvgLayers.Container),
        c.processed = true →
        RevealSvgLayers.initContainer env f uid c =
          { container := c, build := none, logged := false }) ∧
    (∀ (slide : FloatingDevHelper.SlideGeom) (el : FloatingDevHelper.FloatingEl),
        el.inWeakSet = true →
        FloatingDevHelper.initAllStep slide el =
          { el with hud := some (FloatingDevHelper.measure slide el.box) }) := by
  constructor
  · intro env f uid c hp
    simp [RevealSvgLayers.initContainer, hp]
  · intro slide el hw
    simp [FloatingDevHelper.initAllStep, FloatingDevHelper.updateHudAndVars, hw]

/-- C9, witness: a processed scenario container and the processed idle
overlay element. -/
theorem init_idempotent_witness :
    ({ RevealSvgLayers.contScenario with processed := true } :
        RevealSvgLayers.Container).processed = true ∧
    RevealSvgLayers.initContainer RevealSvgLayers.envFetchFail "" 0
        { RevealSvgLayers.contScenario with processed := true } =
      { container := { RevealSvgLayers.contScenario with processed := true },
        build := none, logged := false } ∧
    FloatingDevHelper.elIdle.inWeakSet = true ∧
    FloatingDevHelper.initAllStep FloatingDevHelper.slideHalf FloatingDevHelper.elIdle =
      { FloatingDevHelper.elIdle with
          hud := some (FloatingDevHelper.measure FloatingDevHelper.slideHalf
            FloatingDevHelper.elIdle.box) } :=
  ⟨rfl, init_idempotent.1 RevealSvgLayers.envFetchFail "" 0 _ rfl, rfl,
    init_idempotent.2 FloatingDevHelper.slideHalf FloatingDevHelper.elIdle rfl⟩
